import Mathlib

/-!
# USB descriptor constants of the ECmacro02 keyboard firmware

A shallow embedding of `firmware/ecmacro02/src/USBconstant.h`: the endpoint
constants, the composite configuration structure
`USB_Descriptor_Configuration_t`, and the descriptor tables the header declares
`extern`.  Machine integers are natural numbers, truncated explicitly where a
value is stored into a `uint8_t` or `uint16_t`.
-/

namespace USBconstant

/-! ## Endpoint constants (lines 29-34 of the header) -/

/-- The header's `#define EP0_ADDR 0`. -/
def EP0_ADDR : Nat := 0

/-- The header's `#define EP1_ADDR 10`. -/
def EP1_ADDR : Nat := 10

/-- The header's `#define KEYBOARD_EPADDR 0x81`. -/
def KEYBOARD_EPADDR : Nat := 0x81

/-- The header's `#define KEYBOARD_LED_EPADDR 0x01`. -/
def KEYBOARD_LED_EPADDR : Nat := 0x01

/-- The header's `#define KEYBOARD_EPSIZE 8`. -/
def KEYBOARD_EPSIZE : Nat := 8

/-- One line `#define EPn_ADDR v` of the header: the hardware endpoint `n` the
macro is named after, and the value `v` the macro expands to. -/
structure EndpointDefinition where
  number : Nat
  value : Nat
  deriving DecidableEq, Repr

/-- The two `EPn_ADDR` definitions of the header, in source order. -/
def endpointTable : List EndpointDefinition :=
  [⟨0, EP0_ADDR⟩, ⟨1, EP1_ADDR⟩]

/-- The endpoint-number nibble of an endpoint address (its low four bits). -/
def endpointNumber (epaddr : Nat) : Nat := epaddr &&& 0x0F

/-! ## The composite configuration structure (lines 41-49 of the header) -/

/-- The four sub-descriptor types that `USB_Descriptor_Configuration_t` uses. -/
inductive DescriptorType where
  | USB_Descriptor_Configuration_Header_t
  | USB_Descriptor_Interface_t
  | USB_HID_Descriptor_HID_t
  | USB_Descriptor_Endpoint_t
  deriving DecidableEq, Repr

/-- A scalar field of a descriptor record: its name and its width in bytes. -/
structure Field where
  name : String
  width : Nat
  deriving DecidableEq, Repr

/-- Modelled from the spec: the field lists of the four sub-descriptor types,
which the header takes from `usbCommonDescriptors/StdDescriptors.h` and
`usbCommonDescriptors/HIDClassCommon.h` (not part of the sources at hand).  The
spec fixes them as records "mirroring the USB and HID class specifications
byte-for-byte", without padding; the fields carry the names of those
specifications. -/
def DescriptorType.fields : DescriptorType → List Field
  | .USB_Descriptor_Configuration_Header_t =>
    [⟨"bLength", 1⟩, ⟨"bDescriptorType", 1⟩, ⟨"wTotalLength", 2⟩,
     ⟨"bNumInterfaces", 1⟩, ⟨"bConfigurationValue", 1⟩, ⟨"iConfiguration", 1⟩,
     ⟨"bmAttributes", 1⟩, ⟨"bMaxPower", 1⟩]
  | .USB_Descriptor_Interface_t =>
    [⟨"bLength", 1⟩, ⟨"bDescriptorType", 1⟩, ⟨"bInterfaceNumber", 1⟩,
     ⟨"bAlternateSetting", 1⟩, ⟨"bNumEndpoints", 1⟩, ⟨"bInterfaceClass", 1⟩,
     ⟨"bInterfaceSubClass", 1⟩, ⟨"bInterfaceProtocol", 1⟩, ⟨"iInterface", 1⟩]
  | .USB_HID_Descriptor_HID_t =>
    [⟨"bLength", 1⟩, ⟨"bDescriptorType", 1⟩, ⟨"bcdHID", 2⟩,
     ⟨"bCountryCode", 1⟩, ⟨"bNumDescriptors", 1⟩, ⟨"bReportDescriptorType", 1⟩,
     ⟨"wDescriptorLength", 2⟩]
  | .USB_Descriptor_Endpoint_t =>
    [⟨"bLength", 1⟩, ⟨"bDescriptorType", 1⟩, ⟨"bEndpointAddress", 1⟩,
     ⟨"bmAttributes", 1⟩, ⟨"wMaxPacketSize", 2⟩, ⟨"bInterval", 1⟩]

/-- The C `sizeof` of a sub-descriptor type: the widths of its fields added up. -/
def DescriptorType.sizeof (t : DescriptorType) : Nat :=
  (t.fields.map Field.width).sum

/-- A member declaration `type name;` of a C structure. -/
structure Member where
  type : DescriptorType
  name : String
  deriving DecidableEq, Repr

/-- The member declarations of `USB_Descriptor_Configuration_t`, in source
order.  The declaration of `HID_ReportOUTEndpoint` is commented out in the
header and so is no member. -/
def USB_Descriptor_Configuration_t : List Member :=
  [⟨.USB_Descriptor_Configuration_Header_t, "Config"⟩,
   ⟨.USB_Descriptor_Interface_t, "HID_Interface"⟩,
   ⟨.USB_HID_Descriptor_HID_t, "HID_KeyboardHID"⟩,
   ⟨.USB_Descriptor_Endpoint_t, "HID_ReportINEndpoint"⟩]

/-- The C `sizeof` of a structure made of the given members. -/
def sizeofStruct (members : List Member) : Nat :=
  (members.map fun m => m.type.sizeof).sum

/-- A member placed in memory: where it starts and how many bytes it takes. -/
structure Placement where
  name : String
  type : DescriptorType
  offset : Nat
  size : Nat
  deriving DecidableEq, Repr

/-- C structure layout: members are placed in declaration order, each right
after the one before it, the first at offset `start`. -/
def layoutFrom : Nat → List Member → List Placement
  | _, [] => []
  | start, m :: rest =>
    ⟨m.name, m.type, start, m.type.sizeof⟩ :: layoutFrom (start + m.type.sizeof) rest

/-- The layout of a structure, starting at offset 0. -/
def layout (members : List Member) : List Placement := layoutFrom 0 members

/-- The C `offsetof`: the offset of the member called `name`, when there is one. -/
def offsetof (members : List Member) (name : String) : Option Nat :=
  ((layout members).find? fun p => p.name == name).map Placement.offset

/-- How many members of a structure have the given type. -/
def countOfType (members : List Member) (t : DescriptorType) : Nat :=
  members.countP fun m => m.type == t


/-! ## Descriptor values and their serialized form -/

/-- A C designated initializer of a record: the `.field = value` pairs. -/
abbrev Initializer := List (String × Nat)

/-- The value an initializer gives a field; a field it does not name is zero,
as in C. -/
def fieldValue (init : Initializer) (field : String) : Nat :=
  (init.lookup field).getD 0

/-- The `width` low bytes of `value`, least significant first: how the target
stores a `uint8_t` (width 1) or a `uint16_t` (width 2). -/
def littleEndian : Nat → Nat → List Nat
  | 0, _ => []
  | width + 1, value => value % 256 :: littleEndian width (value / 256)

/-- The bytes of one sub-descriptor: its fields in declaration order. -/
def DescriptorType.encode (t : DescriptorType) (init : Initializer) : List Nat :=
  (t.fields.map fun f => littleEndian f.width (fieldValue init f.name)).flatten

/-- The bytes of a structure value: its members in declaration order, each
initialised by the entry of `init` that carries its name. -/
def serialize (members : List Member) (init : List (String × Initializer)) :
    List Nat :=
  (members.map fun m => m.type.encode ((init.lookup m.name).getD [])).flatten

/-- Descriptor type codes of the USB and HID class specifications. -/
def DTYPE_Configuration : Nat := 0x02

/-- Descriptor type code of a string descriptor. -/
def DTYPE_String : Nat := 0x03

/-- Descriptor type code of an interface descriptor. -/
def DTYPE_Interface : Nat := 0x04

/-- Descriptor type code of an endpoint descriptor. -/
def DTYPE_Endpoint : Nat := 0x05

/-- Descriptor type code of the HID class descriptor. -/
def HID_DTYPE_HID : Nat := 0x21

/-- The type code a sub-descriptor of the given C type carries. -/
def DescriptorType.code : DescriptorType → Nat
  | .USB_Descriptor_Configuration_Header_t => DTYPE_Configuration
  | .USB_Descriptor_Interface_t => DTYPE_Interface
  | .USB_HID_Descriptor_HID_t => HID_DTYPE_HID
  | .USB_Descriptor_Endpoint_t => DTYPE_Endpoint

/-- The fields of the configuration descriptor whose values the spec leaves
open. -/
structure OpenFields where
  bConfigurationValue : Nat
  iConfiguration : Nat
  bmConfigAttributes : Nat
  bMaxPower : Nat
  bInterfaceNumber : Nat
  bAlternateSetting : Nat
  bInterfaceClass : Nat
  bInterfaceSubClass : Nat
  bInterfaceProtocol : Nat
  iInterface : Nat
  bcdHID : Nat
  bCountryCode : Nat
  bNumDescriptors : Nat
  bReportDescriptorType : Nat
  wDescriptorLength : Nat
  bmEndpointAttributes : Nat
  bInterval : Nat
  deriving Repr

/-- Modelled from the spec: the value of `ConfigurationDescriptor`, which the
header only declares `extern` (its initializer is in a file that is not part
of the sources at hand).  As the spec requires, every sub-descriptor declares
its true encoded size and its own type, `wTotalLength` is computed as the size
of the whole structure, `bNumInterfaces` is 1, and the one endpoint advertised
is `KEYBOARD_EPADDR` with packets of `KEYBOARD_EPSIZE` bytes.  The fields the
spec says nothing about are taken from `o`. -/
def ConfigurationDescriptor (o : OpenFields) : List (String × Initializer) :=
  [("Config",
      [("bLength", DescriptorType.USB_Descriptor_Configuration_Header_t.sizeof),
       ("bDescriptorType", DTYPE_Configuration),
       ("wTotalLength", sizeofStruct USB_Descriptor_Configuration_t),
       ("bNumInterfaces", 1),
       ("bConfigurationValue", o.bConfigurationValue),
       ("iConfiguration", o.iConfiguration),
       ("bmAttributes", o.bmConfigAttributes),
       ("bMaxPower", o.bMaxPower)]),
   ("HID_Interface",
      [("bLength", DescriptorType.USB_Descriptor_Interface_t.sizeof),
       ("bDescriptorType", DTYPE_Interface),
       ("bInterfaceNumber", o.bInterfaceNumber),
       ("bAlternateSetting", o.bAlternateSetting),
       ("bNumEndpoints", 1),
       ("bInterfaceClass", o.bInterfaceClass),
       ("bInterfaceSubClass", o.bInterfaceSubClass),
       ("bInterfaceProtocol", o.bInterfaceProtocol),
       ("iInterface", o.iInterface)]),
   ("HID_KeyboardHID",
      [("bLength", DescriptorType.USB_HID_Descriptor_HID_t.sizeof),
       ("bDescriptorType", HID_DTYPE_HID),
       ("bcdHID", o.bcdHID),
       ("bCountryCode", o.bCountryCode),
       ("bNumDescriptors", o.bNumDescriptors),
       ("bReportDescriptorType", o.bReportDescriptorType),
       ("wDescriptorLength", o.wDescriptorLength)]),
   ("HID_ReportINEndpoint",
      [("bLength", DescriptorType.USB_Descriptor_Endpoint_t.sizeof),
       ("bDescriptorType", DTYPE_Endpoint),
       ("bEndpointAddress", KEYBOARD_EPADDR),
       ("bmAttributes", o.bmEndpointAttributes),
       ("wMaxPacketSize", KEYBOARD_EPSIZE),
       ("bInterval", o.bInterval)])]

/-- The serialized `ConfigurationDescriptor`: the bytes a
`GET_DESCRIPTOR(CONFIGURATION)` request is answered with. -/
def ConfigurationDescriptor.bytes (o : OpenFields) : List Nat :=
  serialize USB_Descriptor_Configuration_t (ConfigurationDescriptor o)

/-- The `wTotalLength` field read back from a serialized configuration
descriptor: the 16-bit little-endian word at offset 2. -/
def wTotalLength (bytes : List Nat) : Nat :=
  bytes[2]?.getD 0 + 256 * bytes[3]?.getD 0

/-- One sub-descriptor met by the generic walk: where it starts, and the
length and type bytes it begins with. -/
structure Visited where
  offset : Nat
  bLength : Nat
  bDescriptorType : Nat
  deriving DecidableEq, Repr

/-- The generic walk of a descriptor stream, as a host does it: at `offset`,
read the sub-descriptor's own length byte and step over it.  The walk ends
well, with the sub-descriptors it visited, only when it lands on `total`
exactly; it fails (`none`) when a sub-descriptor would run past `total` or past
the end of the bytes, when a length byte is too small to hold a header, or when
the fuel runs out. -/
def walkFrom (bytes : List Nat) (total : Nat) : Nat → Nat → Option (List Visited)
  | 0, _ => none
  | fuel + 1, offset =>
    if offset = total then some []
    else
      match bytes[offset]?, bytes[offset + 1]? with
      | some len, some type =>
        if len < 2 then none
        else if total < offset + len then none
        else if bytes.length < offset + len then none
        else (walkFrom bytes total fuel (offset + len)).map
          fun rest => ⟨offset, len, type⟩ :: rest
      | _, _ => none

/-- The generic walk from offset 0.  Every step moves on by two bytes at
least, so a fuel of one more than the number of bytes never runs out. -/
def walk (bytes : List Nat) (total : Nat) : Option (List Visited) :=
  walkFrom bytes total (bytes.length + 1) 0

/-! ## The HID report descriptor -/

/-- Parser state of a HID report descriptor: the global items Report Size and
Report Count in force, and the input fields declared so far, each with its bit
width and its count, in order. -/
structure ReportState where
  reportSize : Nat
  reportCount : Nat
  inputs : List (Nat × Nat)
  deriving DecidableEq, Repr

/-- The number of data bytes of a short item, from the two low bits of its
header byte: 0, 1, 2 or 4. -/
def itemDataSize (header : Nat) : Nat :=
  if header % 4 = 3 then 4 else header % 4

/-- The unsigned value of an item's data bytes, least significant first. -/
def itemData : List Nat → Nat
  | [] => 0
  | b :: rest => b + 256 * itemData rest

/-- The effect of one short item, given its tag and type bits (the header byte
without its size bits) and its data: Report Size (0x74) and Report Count (0x94)
set the globals, Input (0x80) declares a field of the current size and count.
Report ID (0x84), Push (0xA4) and Pop (0xB4) are not interpreted (`none`);
every other item leaves the state as it is. -/
def applyItem (tagAndType data : Nat) (st : ReportState) : Option ReportState :=
  if tagAndType = 0x74 then some { st with reportSize := data }
  else if tagAndType = 0x94 then some { st with reportCount := data }
  else if tagAndType = 0x80 then
    some { st with inputs := st.inputs ++ [(st.reportSize, st.reportCount)] }
  else if tagAndType = 0x84 ∨ tagAndType = 0xA4 ∨ tagAndType = 0xB4 then none
  else some st

/-- Interpret the items of a HID report descriptor one after the other.  A
long item (header byte 0xFE) or an item whose data runs past the end of the bytes
makes the descriptor ill-formed (`none`), and so does running out of fuel. -/
def parseItems : Nat → List Nat → ReportState → Option ReportState
  | _, [], st => some st
  | 0, _ :: _, _ => none
  | fuel + 1, header :: rest, st =>
    if header = 0xFE then none
    else if rest.length < itemDataSize header then none
    else
      match applyItem (header - header % 4)
          (itemData (rest.take (itemDataSize header))) st with
      | none => none
      | some st1 => parseItems fuel (rest.drop (itemDataSize header)) st1

/-- The input fields a report descriptor declares, as (bit width, count)
pairs.  Every item takes one byte at least, so a fuel of the number of bytes
never runs out. -/
def inputFields (descriptor : List Nat) : Option (List (Nat × Nat)) :=
  (parseItems descriptor.length descriptor ⟨0, 0, []⟩).map ReportState.inputs

/-- The number of bits of an input report: the bit widths of all its fields
added up. -/
def inputBits (fields : List (Nat × Nat)) : Nat :=
  (fields.map fun f => f.1 * f.2).sum

/-- The total size in bytes of the input report a descriptor declares: its
bits, rounded up to whole bytes. -/
def reportSizeBytes (descriptor : List Nat) : Option Nat :=
  (inputFields descriptor).map fun fields => (inputBits fields + 7) / 8

/-- Modelled from the spec: the bytes of `ReportDescriptor`, which the header
only declares `extern` (the table is in a file that is not part of the sources
at hand).  As the spec describes it, the byte-code declares a keyboard usage
page, a set of modifier-key bits, a reserved byte and an array of 6 key usage
codes. -/
def ReportDescriptor : List Nat :=
  [0x05, 0x01,   -- Usage Page (Generic Desktop)
   0x09, 0x06,   -- Usage (Keyboard)
   0xA1, 0x01,   -- Collection (Application)
   0x05, 0x07,   --   Usage Page (Keyboard)
   0x19, 0xE0,   --   Usage Minimum (Left Control)
   0x29, 0xE7,   --   Usage Maximum (Right GUI)
   0x15, 0x00,   --   Logical Minimum (0)
   0x25, 0x01,   --   Logical Maximum (1)
   0x75, 0x01,   --   Report Size (1)
   0x95, 0x08,   --   Report Count (8)
   0x81, 0x02,   --   Input (Data, Variable, Absolute): the modifier-key bits
   0x95, 0x01,   --   Report Count (1)
   0x75, 0x08,   --   Report Size (8)
   0x81, 0x01,   --   Input (Constant): the reserved byte
   0x95, 0x06,   --   Report Count (6)
   0x75, 0x08,   --   Report Size (8)
   0x15, 0x00,   --   Logical Minimum (0)
   0x25, 0x65,   --   Logical Maximum (101)
   0x05, 0x07,   --   Usage Page (Keyboard)
   0x19, 0x00,   --   Usage Minimum (0)
   0x29, 0x65,   --   Usage Maximum (101)
   0x81, 0x00,   --   Input (Data, Array): the 6 key slots
   0xC0]         -- End Collection

/-! ## String descriptors -/

/-- The bytes of a `uint16_t` table in program memory, least significant byte
of each word first. -/
def serialize16 (words : List Nat) : List Nat :=
  (words.map (littleEndian 2)).flatten

/-- Modelled from the spec: a string descriptor as a `uint16_t` table, "a
length-prefixed UTF-16 sequence": a header word whose low byte is the length
`2 + 2 * N` in bytes and whose high byte is the string descriptor type,
followed by the `N` UTF-16 code units of the text, without a terminator. -/
def stringDescriptor (text : List Nat) : List Nat :=
  ((2 + 2 * text.length) ||| (DTYPE_String <<< 8)) % 65536
    :: text.map fun unit => unit % 65536

/-- Modelled from the spec: `SerialDescriptor`, declared `extern` by the
header as a `uint16_t` table; the spec does not give its text, which is the
argument. -/
def SerialDescriptor (text : List Nat) : List Nat := stringDescriptor text

/-- Modelled from the spec: `ProductDescriptor`, declared `extern` by the
header as a `uint16_t` table; the spec does not give its text, which is the
argument. -/
def ProductDescriptor (text : List Nat) : List Nat := stringDescriptor text

/-- Modelled from the spec: `ManufacturerDescriptor`, declared `extern` by the
header as a `uint16_t` table; the spec does not give its text, which is the
argument. -/
def ManufacturerDescriptor (text : List Nat) : List Nat := stringDescriptor text

/-- The USB language identifier of English (United States). -/
def LANGUAGE_ID_ENG : Nat := 0x0409

/-- Modelled from the spec: `LanguageDescriptor`, declared `extern` by the
header as a `uint8_t` table: the length and type header, then the language
identifiers the device supports, of which the spec names English-US, each a
16-bit word stored least significant byte first. -/
def LanguageDescriptor : List Nat :=
  [2 + 2 * [LANGUAGE_ID_ENG].length, DTYPE_String]
    ++ serialize16 [LANGUAGE_ID_ENG]

/-- The number of UTF-16 code units that follow the two-byte header of a
serialized string descriptor. -/
def codeUnits (bytes : List Nat) : Nat := (bytes.length - 2) / 2

/-- The 16-bit word at the given byte offset of a serialized table. -/
def wordAt (bytes : List Nat) (offset : Nat) : Option Nat :=
  match bytes[offset]?, bytes[offset + 1]? with
  | some lo, some hi => some (lo + 256 * hi)
  | _, _ => none

/-- The primary language of a USB language identifier: its bits 0 to 9. -/
def primaryLanguage (langid : Nat) : Nat := langid % 1024

/-- The sublanguage of a USB language identifier: its bits 10 to 15. -/
def subLanguage (langid : Nat) : Nat := langid / 1024 % 64

/-- A 16-bit word is a valid USB language identifier when it names both a
primary language and a sublanguage of it (neither part is zero). -/
def validLanguageID (langid : Nat) : Bool :=
  decide (langid < 65536) && primaryLanguage langid != 0 && subLanguage langid != 0

/-- The four string descriptor tables in their serialized form, for the given
texts of the serial, product and manufacturer strings. -/
def stringTables (serial product manufacturer : List Nat) : List (List Nat) :=
  [LanguageDescriptor,
   serialize16 (SerialDescriptor serial),
   serialize16 (ProductDescriptor product),
   serialize16 (ManufacturerDescriptor manufacturer)]

/-! # Theorems -/

/-! ## Endpoint addressing -/

/-- C1: `KEYBOARD_EPADDR` is the IN address of endpoint 1: its direction bit
0x80 is set and its endpoint-number nibble is 1. -/
theorem keyboard_epaddr_is_in_endpoint_one :
    KEYBOARD_EPADDR &&& 0x80 = 0x80 ∧ KEYBOARD_EPADDR &&& 0x0F = 1 := by
  decide

/-- C2: `KEYBOARD_LED_EPADDR` has the direction bit cleared and is
`KEYBOARD_EPADDR` without its direction bit; equivalently `KEYBOARD_EPADDR` is
`KEYBOARD_LED_EPADDR` with the direction bit set, and the two share their
endpoint number. -/
theorem keyboard_led_epaddr_pairs_with_keyboard_epaddr :
    KEYBOARD_LED_EPADDR &&& 0x80 = 0 ∧
    KEYBOARD_LED_EPADDR = KEYBOARD_EPADDR &&& 0x7F ∧
    KEYBOARD_EPADDR = KEYBOARD_LED_EPADDR ||| 0x80 ∧
    endpointNumber KEYBOARD_LED_EPADDR = endpointNumber KEYBOARD_EPADDR := by
  decide

/-- C3, as stated, fails: the value the header configures for the second
hardware endpoint is `EP1_ADDR = 10`, and neither keyboard endpoint address has
the endpoint-number nibble 10. -/
theorem endpoint_nibble_differs_from_EP1_ADDR :
    (endpointTable.get? 1).map EndpointDefinition.value = some 10 ∧
    KEYBOARD_EPADDR &&& 0x0F ≠ EP1_ADDR ∧
    KEYBOARD_LED_EPADDR &&& 0x0F ≠ EP1_ADDR := by
  decide

/-- C3, amended: the endpoint-number nibble of each keyboard endpoint address
is 1, the number of the second hardware endpoint (the `1` of `EP1_ADDR`) in the
endpoint table, whose configured value is 10. -/
theorem endpoint_nibble_is_second_endpoint_number :
    (endpointTable.get? 1).map EndpointDefinition.number
      = some (KEYBOARD_EPADDR &&& 0x0F) ∧
    (endpointTable.get? 1).map EndpointDefinition.number
      = some (KEYBOARD_LED_EPADDR &&& 0x0F) ∧
    (endpointTable.get? 1).map EndpointDefinition.value = some EP1_ADDR ∧
    EP1_ADDR = 10 := by
  decide

/-! ## The composite configuration structure -/

/-- C4: the members of `USB_Descriptor_Configuration_t` are, in this order,
the configuration header `Config`, the interface descriptor `HID_Interface`,
the HID descriptor `HID_KeyboardHID` and the endpoint descriptor
`HID_ReportINEndpoint`; the header sits at offset 0, each further member starts
where the one before it ends, and the last ends where the structure ends. -/
theorem configuration_members_in_fixed_order :
    USB_Descriptor_Configuration_t.map Member.name
      = ["Config", "HID_Interface", "HID_KeyboardHID", "HID_ReportINEndpoint"] ∧
    USB_Descriptor_Configuration_t.map Member.type
      = [.USB_Descriptor_Configuration_Header_t, .USB_Descriptor_Interface_t,
         .USB_HID_Descriptor_HID_t, .USB_Descriptor_Endpoint_t] ∧
    offsetof USB_Descriptor_Configuration_t "Config" = some 0 ∧
    offsetof USB_Descriptor_Configuration_t "HID_Interface"
      = some DescriptorType.USB_Descriptor_Configuration_Header_t.sizeof ∧
    offsetof USB_Descriptor_Configuration_t "HID_KeyboardHID"
      = some (DescriptorType.USB_Descriptor_Configuration_Header_t.sizeof
          + DescriptorType.USB_Descriptor_Interface_t.sizeof) ∧
    offsetof USB_Descriptor_Configuration_t "HID_ReportINEndpoint"
      = some (DescriptorType.USB_Descriptor_Configuration_Header_t.sizeof
          + DescriptorType.USB_Descriptor_Interface_t.sizeof
          + DescriptorType.USB_HID_Descriptor_HID_t.sizeof) ∧
    sizeofStruct USB_Descriptor_Configuration_t
      = DescriptorType.USB_Descriptor_Configuration_Header_t.sizeof
          + DescriptorType.USB_Descriptor_Interface_t.sizeof
          + DescriptorType.USB_HID_Descriptor_HID_t.sizeof
          + DescriptorType.USB_Descriptor_Endpoint_t.sizeof := by
  refine ⟨rfl, rfl, ?_, ?_, ?_, ?_, ?_⟩ <;> decide

/-- C5: `USB_Descriptor_Configuration_t` has exactly four sub-descriptors: one
configuration header, one interface descriptor, one HID descriptor and one
endpoint descriptor, which is the IN report endpoint; no member is the OUT
(LED) endpoint `HID_ReportOUTEndpoint`. -/
theorem configuration_has_four_sub_descriptors :
    USB_Descriptor_Configuration_t.length = 4 ∧
    countOfType USB_Descriptor_Configuration_t .USB_Descriptor_Configuration_Header_t = 1 ∧
    countOfType USB_Descriptor_Configuration_t .USB_Descriptor_Interface_t = 1 ∧
    countOfType USB_Descriptor_Configuration_t .USB_HID_Descriptor_HID_t = 1 ∧
    countOfType USB_Descriptor_Configuration_t .USB_Descriptor_Endpoint_t = 1 ∧
    USB_Descriptor_Configuration_t.filter
        (fun m => m.type == .USB_Descriptor_Endpoint_t)
      = [⟨.USB_Descriptor_Endpoint_t, "HID_ReportINEndpoint"⟩] ∧
    offsetof USB_Descriptor_Configuration_t "HID_ReportOUTEndpoint" = none := by
  refine ⟨rfl, ?_, ?_, ?_, ?_, ?_, ?_⟩ <;> decide

/-! ## The serialized configuration descriptor -/

/-- The bytes of `ConfigurationDescriptor`, written out. -/
theorem ConfigurationDescriptor.bytes_eq (o : OpenFields) :
    ConfigurationDescriptor.bytes o =
      [9, 2, 34, 0, 1, o.bConfigurationValue % 256, o.iConfiguration % 256,
       o.bmConfigAttributes % 256, o.bMaxPower % 256,
       9, 4, o.bInterfaceNumber % 256, o.bAlternateSetting % 256, 1,
       o.bInterfaceClass % 256, o.bInterfaceSubClass % 256,
       o.bInterfaceProtocol % 256, o.iInterface % 256,
       9, 33, o.bcdHID % 256, o.bcdHID / 256 % 256, o.bCountryCode % 256,
       o.bNumDescriptors % 256, o.bReportDescriptorType % 256,
       o.wDescriptorLength % 256, o.wDescriptorLength / 256 % 256,
       7, 5, 129, o.bmEndpointAttributes % 256, 8, 0, o.bInterval % 256] := by
  simp [ConfigurationDescriptor.bytes, serialize, USB_Descriptor_Configuration_t,
    ConfigurationDescriptor, DescriptorType.encode, DescriptorType.fields,
    List.lookup, fieldValue, littleEndian, sizeofStruct, DescriptorType.sizeof,
    DTYPE_Configuration, DTYPE_Interface, DTYPE_Endpoint, HID_DTYPE_HID,
    KEYBOARD_EPADDR, KEYBOARD_EPSIZE]

/-- C6: the `wTotalLength` field of the serialized `ConfigurationDescriptor`
is the exact number of bytes of the whole composite structure: the number of
bytes serialized, the `sizeof` of `USB_Descriptor_Configuration_t`, and the sum
of the sizes of the configuration header, the interface descriptor, the HID
descriptor and the one endpoint descriptor. -/
theorem wTotalLength_is_size_of_composite (o : OpenFields) :
    wTotalLength (ConfigurationDescriptor.bytes o)
      = (ConfigurationDescriptor.bytes o).length ∧
    wTotalLength (ConfigurationDescriptor.bytes o)
      = sizeofStruct USB_Descriptor_Configuration_t ∧
    wTotalLength (ConfigurationDescriptor.bytes o)
      = DescriptorType.USB_Descriptor_Configuration_Header_t.sizeof
          + DescriptorType.USB_Descriptor_Interface_t.sizeof
          + DescriptorType.USB_HID_Descriptor_HID_t.sizeof
          + DescriptorType.USB_Descriptor_Endpoint_t.sizeof ∧
    wTotalLength (ConfigurationDescriptor.bytes o)
      = (USB_Descriptor_Configuration_t.map fun m =>
          (m.type.encode (((ConfigurationDescriptor o).lookup m.name).getD [])).length).sum := by
  have hsum : (USB_Descriptor_Configuration_t.map fun m =>
      (m.type.encode (((ConfigurationDescriptor o).lookup m.name).getD [])).length).sum
      = 34 := by
    simp [USB_Descriptor_Configuration_t, ConfigurationDescriptor,
      DescriptorType.encode, DescriptorType.fields, List.lookup, littleEndian]
  rw [hsum, ConfigurationDescriptor.bytes_eq]
  exact ⟨rfl, rfl, rfl, rfl⟩

/-- C7: the generic walk of the serialized `ConfigurationDescriptor`, from
offset 0 and stepping by each sub-descriptor's own length byte, ends well at
offset `wTotalLength`; it visits exactly the four members of the structure, in
declaration order, each at its offset in the structure, with its size as the
length byte and its own type code. -/
theorem walk_ends_at_wTotalLength (o : OpenFields) :
    walk (ConfigurationDescriptor.bytes o)
        (wTotalLength (ConfigurationDescriptor.bytes o))
      = some ((layout USB_Descriptor_Configuration_t).map fun p =>
          ⟨p.offset, p.size, p.type.code⟩) ∧
    walk (ConfigurationDescriptor.bytes o)
        (wTotalLength (ConfigurationDescriptor.bytes o))
      = some [⟨0, 9, DTYPE_Configuration⟩, ⟨9, 9, DTYPE_Interface⟩,
          ⟨18, 9, HID_DTYPE_HID⟩, ⟨27, 7, DTYPE_Endpoint⟩] ∧
    27 + 7 = wTotalLength (ConfigurationDescriptor.bytes o) ∧
    wTotalLength (ConfigurationDescriptor.bytes o)
      = (ConfigurationDescriptor.bytes o).length := by
  rw [ConfigurationDescriptor.bytes_eq]
  exact ⟨rfl, rfl, rfl, rfl⟩

/-! ## The HID report descriptor -/

/-- C8: the input report that `ReportDescriptor` declares has
`KEYBOARD_EPSIZE` bytes, and `KEYBOARD_EPSIZE` is 8: one byte of modifier bits,
one reserved byte and six key slots. -/
theorem report_size_is_KEYBOARD_EPSIZE :
    reportSizeBytes ReportDescriptor = some KEYBOARD_EPSIZE ∧
    inputFields ReportDescriptor = some [(1, 8), (8, 1), (8, 6)] ∧
    (inputFields ReportDescriptor).map (fun fields => fields.map fun f => f.1 * f.2 / 8)
      = some [1, 1, 6] ∧
    KEYBOARD_EPSIZE = 8 ∧
    KEYBOARD_EPSIZE = 1 + 1 + 6 := by
  decide

/-! ## String descriptors -/

/-- A `uint16_t` table takes two bytes a word. -/
theorem serialize16_length (words : List Nat) :
    (serialize16 words).length = 2 * words.length := by
  induction words with
  | nil => rfl
  | cons w rest ih =>
    have h : serialize16 (w :: rest) = littleEndian 2 w ++ serialize16 rest := by
      simp [serialize16]
    rw [h, List.length_append, ih]
    simp [littleEndian]
    omega

/-- The low byte of the header word of a string descriptor is its length in
bytes, as long as that length fits a byte. -/
theorem stringDescriptor_header_low_byte (n : Nat) (h : n ≤ 126) :
    ((2 + 2 * n) ||| (DTYPE_String <<< 8)) % 65536 % 256 = 2 + 2 * n := by
  interval_cases n <;> rfl

/-- The serialized form of a string descriptor starts with its length in bytes
and holds as many code units as the text has. -/
theorem stringDescriptor_serialized (text : List Nat) (h : text.length ≤ 126) :
    (serialize16 (stringDescriptor text)).head?
        = some (2 + 2 * codeUnits (serialize16 (stringDescriptor text))) ∧
    codeUnits (serialize16 (stringDescriptor text)) = text.length := by
  have hlen : codeUnits (serialize16 (stringDescriptor text)) = text.length := by
    simp only [codeUnits, serialize16_length, stringDescriptor, List.length_cons,
      List.length_map]
    omega
  refine ⟨?_, hlen⟩
  rw [hlen]
  simp only [stringDescriptor, serialize16, List.map_cons, List.flatten_cons,
    littleEndian, List.cons_append, List.head?_cons]
  rw [stringDescriptor_header_low_byte _ h]

/-- C9: as long as each text has at most 126 code units (a length byte holds
no more), each of the four string descriptor tables starts, in its serialized
form, with the byte `2 + 2 * N`, where `N` is the number of UTF-16 code units
after the two-byte header; for the three text tables `N` is the length of the
text, for `LanguageDescriptor` it is 1. -/
theorem string_descriptor_first_byte_is_length (serial product manufacturer : List Nat)
    (hs : serial.length ≤ 126) (hp : product.length ≤ 126)
    (hm : manufacturer.length ≤ 126) :
    (∀ table ∈ stringTables serial product manufacturer,
      table.head? = some (2 + 2 * codeUnits table)) ∧
    codeUnits LanguageDescriptor = 1 ∧
    codeUnits (serialize16 (SerialDescriptor serial)) = serial.length ∧
    codeUnits (serialize16 (ProductDescriptor product)) = product.length ∧
    codeUnits (serialize16 (ManufacturerDescriptor manufacturer))
      = manufacturer.length := by
  refine ⟨?_, rfl, (stringDescriptor_serialized serial hs).2,
    (stringDescriptor_serialized product hp).2,
    (stringDescriptor_serialized manufacturer hm).2⟩
  intro table htable
  simp only [stringTables, List.mem_cons, List.mem_singleton, List.not_mem_nil,
    or_false] at htable
  rcases htable with rfl | rfl | rfl | rfl
  · rfl
  · exact (stringDescriptor_serialized serial hs).1
  · exact (stringDescriptor_serialized product hp).1
  · exact (stringDescriptor_serialized manufacturer hm).1

/-- C9 at the texts "EC", "" and "Q": the hypotheses hold there. -/
theorem string_descriptor_first_byte_is_length_witness :
    [0x45, 0x43].length ≤ 126 ∧ ([] : List Nat).length ≤ 126 ∧ [0x51].length ≤ 126 ∧
    ((∀ table ∈ stringTables [0x45, 0x43] [] [0x51],
      table.head? = some (2 + 2 * codeUnits table)) ∧
    codeUnits LanguageDescriptor = 1 ∧
    codeUnits (serialize16 (SerialDescriptor [0x45, 0x43])) = [0x45, 0x43].length ∧
    codeUnits (serialize16 (ProductDescriptor [])) = ([] : List Nat).length ∧
    codeUnits (serialize16 (ManufacturerDescriptor [0x51])) = [0x51].length) :=
  ⟨by decide, by decide, by decide,
    string_descriptor_first_byte_is_length [0x45, 0x43] [] [0x51]
      (by decide) (by decide) (by decide)⟩

/-- C10: the first content word of `LanguageDescriptor`, the 16-bit word after
its two-byte header, is the language identifier of English (United States),
0x0409, which is not zero and is a valid USB language identifier. -/
theorem language_descriptor_first_entry_valid :
    wordAt LanguageDescriptor 2 = some LANGUAGE_ID_ENG ∧
    LANGUAGE_ID_ENG = 0x0409 ∧
    LANGUAGE_ID_ENG ≠ 0 ∧
    validLanguageID LANGUAGE_ID_ENG = true := by
  decide

end USBconstant
